import Mathlib

/-!
Shallow embedding of the job-posting lifecycle and relevance-matching core of
the Resume-Analyzer backend (`app/services/job_lifecycle.py`,
`app/services/job_matcher.py`, `app/scrapers/base_scraper.py`,
`app/services/scraping_orchestrator.py`, `app/routers/apply.py`,
`app/routers/jobs.py`).

Timestamps are modelled as integer seconds, monetary amounts and scores as
rationals, and the document store as a list of job records.  Each definition
mirrors one Python function; field and function names follow the source.
-/

/-- One entry of a job's `applied_by` array, as pushed by
`apply_to_job` / `mark_external_application` in `app/routers/apply.py`. -/
structure AppliedEntry where
  user_id : String
  applied_at : Int
  application_id : String
  external : Bool
deriving DecidableEq, Repr

/-- A stored job document (the fields of the `jobs` collection that the
lifecycle manager, the save/unsave endpoints and the scrapers touch). -/
structure StoreJob where
  job_url : String
  created_at : Int
  applied_by : List AppliedEntry
  saved_by : List String
  apply_count : Int
  save_count : Int
  expires_at : Option Int
deriving DecidableEq, Repr

/-- Retention window of the cleanup sweep: `timedelta(days=1)` in
`cleanup_expired_jobs` (`app/services/job_lifecycle.py`), in seconds. -/
def retentionSeconds : Int := 86400

/-- The deletion filter of `cleanup_expired_jobs`: `created_at` strictly
before `now - 1 day`, and both `applied_by` and `saved_by` empty
(`$size` of the `$ifNull`-defaulted arrays equals 0). -/
def sweepShouldDelete (now : Int) (j : StoreJob) : Bool :=
  decide (j.created_at < now - retentionSeconds) &&
    j.applied_by.isEmpty && j.saved_by.isEmpty

/-- `cleanup_expired_jobs` (`app/services/job_lifecycle.py`): delete every
job matching the filter; returns the surviving store and the deleted count. -/
def cleanup_expired_jobs (now : Int) (jobs : List StoreJob) :
    List StoreJob × Nat :=
  (jobs.filter (fun j => !(sweepShouldDelete now j)),
   (jobs.filter (fun j => sweepShouldDelete now j)).length)

/-- `sync_job_counts` (`app/services/job_lifecycle.py`), restricted to one
job: set `apply_count` / `save_count` to the lengths of the corresponding
arrays. -/
def sync_job_counts_update (j : StoreJob) : StoreJob :=
  { j with apply_count := j.applied_by.length,
           save_count := j.saved_by.length }

/-- The `db.jobs.update_one` of `apply_to_job` (`app/routers/apply.py`):
`$push` to `applied_by`, `$inc apply_count`, `$unset expires_at`. -/
def apply_to_job_update (j : StoreJob) (e : AppliedEntry) : StoreJob :=
  { j with applied_by := j.applied_by ++ [e],
           apply_count := j.apply_count + 1,
           expires_at := none }

/-- The `db.jobs.update_one` of `mark_external_application`
(`app/routers/apply.py`): `$push` to `applied_by`, `$inc apply_count` —
and no `$unset` of `expires_at`. -/
def mark_external_application_update (j : StoreJob) (e : AppliedEntry) :
    StoreJob :=
  { j with applied_by := j.applied_by ++ [e],
           apply_count := j.apply_count + 1 }

/-- `mark_job_for_deletion` (`app/services/job_lifecycle.py`): set
`expires_at` to `now + days·86400`. -/
def mark_job_for_deletion (now : Int) (days : Int) (j : StoreJob) : StoreJob :=
  { j with expires_at := some (now + days * 86400) }

/-- `unsave_job` (`app/routers/jobs.py`): unconditionally `$pull` the user
from `saved_by` and `$inc save_count` by `-1`; afterwards, if both arrays
are empty, mark the job for deletion 3 days out. -/
def unsave_job_update (now : Int) (j : StoreJob) (u : String) : StoreJob :=
  let j1 := { j with saved_by := j.saved_by.filter (fun x => x != u),
                     save_count := j.save_count - 1 }
  if j1.saved_by.isEmpty && j1.applied_by.isEmpty then
    mark_job_for_deletion now 3 j1
  else j1

/-- The posting-retention invariant stated by the spec's data model:
a set expiry marker implies no applicant and no saver. -/
def lifecycleInvariant (j : StoreJob) : Prop :=
  j.expires_at ≠ none → j.applied_by = [] ∧ j.saved_by = []

/-- A posting created 25 hours before the sweep instant `360000`,
with empty interaction lists (scenario job of the sweep claim). -/
def sweepJobOld : StoreJob :=
  { job_url := "u1", created_at := 270000, applied_by := [], saved_by := [],
    apply_count := 0, save_count := 0, expires_at := none }

/-- An otherwise-identical posting created 23 hours before `360000`. -/
def sweepJobFresh : StoreJob :=
  { job_url := "u2", created_at := 277200, applied_by := [], saved_by := [],
    apply_count := 0, save_count := 0, expires_at := none }

/-- C1: the sweep deletes exactly the postings older than the 24-hour
retention window whose `applied_by` and `saved_by` are both empty; the
predicate ignores the expiry marker; a posting created 25 hours before the
sweep with empty collections is deleted while one created 23 hours before
is retained. -/
theorem C1_sweep_deletes_exactly_expired_uninteracted :
    ∀ (now : Int) (jobs : List StoreJob),
      (cleanup_expired_jobs now jobs).1 =
        jobs.filter (fun j => !(sweepShouldDelete now j)) ∧
      (cleanup_expired_jobs now jobs).2 =
        (jobs.filter (fun j => sweepShouldDelete now j)).length ∧
      (∀ j : StoreJob, sweepShouldDelete now j = true ↔
        (j.created_at < now - 86400 ∧ j.applied_by = [] ∧ j.saved_by = [])) ∧
      (∀ (j : StoreJob) (e : Option Int),
        sweepShouldDelete now { j with expires_at := e } =
          sweepShouldDelete now j) ∧
      (cleanup_expired_jobs 360000 [sweepJobOld, sweepJobFresh] =
        ([sweepJobFresh], 1)) := by
  intro now jobs
  refine ⟨rfl, rfl, ?_, ?_, by decide⟩
  · intro j
    simp [sweepShouldDelete, retentionSeconds, List.isEmpty_iff, and_assoc]
  · intro j e
    simp [sweepShouldDelete]

/-- A posting that is pending deletion: expiry marker set, no interaction. -/
def pendingDeletionJob : StoreJob :=
  { job_url := "u3", created_at := 0, applied_by := [], saved_by := [],
    apply_count := 0, save_count := 0, expires_at := some 1000 }

/-- A concrete applied-by entry used in the apply counterexample. -/
def externalEntry : AppliedEntry :=
  { user_id := "alice", applied_at := 2000, application_id := "app1",
    external := true }

/-- C3 counterexample: marking an external application on a posting whose
expiry marker is set leaves the marker in place while making `applied_by`
non-empty, so the marker is not cleared and the invariant
`expiry_marker ≠ null ⇒ applied_by = ∅ ∧ saved_by = ∅` is broken. -/
theorem C3_external_apply_keeps_marker_counterexample :
    (mark_external_application_update pendingDeletionJob externalEntry).expires_at
        = some 1000 ∧
    (mark_external_application_update pendingDeletionJob externalEntry).applied_by
        ≠ [] ∧
    lifecycleInvariant pendingDeletionJob ∧
    ¬ lifecycleInvariant
        (mark_external_application_update pendingDeletionJob externalEntry) := by
  refine ⟨rfl, by decide, ?_, ?_⟩
  · intro _
    exact ⟨rfl, rfl⟩
  · intro h
    have := h (by decide)
    simp [mark_external_application_update, pendingDeletionJob,
      externalEntry] at this

/-- C3 amended: the regular apply endpoint clears any expiry marker
unconditionally and preserves the invariant, but marking an external
application leaves the expiry marker exactly as it was (and therefore does
not preserve the invariant when the marker was set). -/
theorem C3_apply_clears_marker_external_does_not :
    ∀ (j : StoreJob) (e : AppliedEntry),
      (apply_to_job_update j e).expires_at = none ∧
      (apply_to_job_update j e).apply_count = j.apply_count + 1 ∧
      (apply_to_job_update j e).applied_by = j.applied_by ++ [e] ∧
      lifecycleInvariant (apply_to_job_update j e) ∧
      (mark_external_application_update j e).expires_at = j.expires_at := by
  intro j e
  refine ⟨rfl, rfl, rfl, ?_, rfl⟩
  intro h
  exact absurd rfl h

/-- C10: `unsave_job` on a posting whose `saved_by` does not contain the
user leaves `saved_by` unchanged but still decrements `save_count`, so it
breaks `save_count = |saved_by|` whenever that relation held, can drive
`save_count` negative, and only `sync_job_counts` restores the relation. -/
theorem C10_unsave_decrements_count_unconditionally :
    ∀ (now : Int) (j : StoreJob) (u : String), u ∉ j.saved_by →
      (unsave_job_update now j u).saved_by = j.saved_by ∧
      (unsave_job_update now j u).save_count = j.save_count - 1 ∧
      (j.save_count = j.saved_by.length →
        (unsave_job_update now j u).save_count ≠
          ((unsave_job_update now j u).saved_by.length : Int)) ∧
      (j.save_count = 0 → (unsave_job_update now j u).save_count < 0) ∧
      (sync_job_counts_update (unsave_job_update now j u)).save_count =
        ((unsave_job_update now j u).saved_by.length : Int) := by
  intro now j u hu
  have hfilter : j.saved_by.filter (fun x => x != u) = j.saved_by := by
    apply List.filter_eq_self.mpr
    intro a ha
    simp only [bne_iff_ne, ne_eq, decide_eq_true_eq]
    intro h
    exact hu (h ▸ ha)
  have hsaved : (unsave_job_update now j u).saved_by = j.saved_by := by
    unfold unsave_job_update mark_job_for_deletion
    dsimp only
    split <;> simp [hfilter]
  have hcount : (unsave_job_update now j u).save_count = j.save_count - 1 := by
    unfold unsave_job_update mark_job_for_deletion
    dsimp only
    split <;> rfl
  refine ⟨hsaved, hcount, ?_, ?_, ?_⟩
  · intro heq
    rw [hcount, hsaved, heq]
    omega
  · intro h0
    rw [hcount, h0]
    omega
  · simp [sync_job_counts_update]

/-- C10 witness: a concrete job saved only by `"alice"`, with
`save_count = 1`, unsaved by `"bob"`. -/
theorem C10_unsave_decrements_count_unconditionally_witness :
    ("bob" ∉ (["alice"] : List String)) ∧
    (let j : StoreJob :=
      { job_url := "u4", created_at := 0, applied_by := [],
        saved_by := ["alice"], apply_count := 0, save_count := 1,
        expires_at := none }
     (unsave_job_update 0 j "bob").saved_by = j.saved_by ∧
     (unsave_job_update 0 j "bob").save_count = j.save_count - 1 ∧
     (j.save_count = j.saved_by.length →
       (unsave_job_update 0 j "bob").save_count ≠
         ((unsave_job_update 0 j "bob").saved_by.length : Int)) ∧
     (j.save_count = 0 → (unsave_job_update 0 j "bob").save_count < 0) ∧
     (sync_job_counts_update (unsave_job_update 0 j "bob")).save_count =
       ((unsave_job_update 0 j "bob").saved_by.length : Int)) :=
  ⟨by decide,
   C10_unsave_decrements_count_unconditionally 0
     { job_url := "u4", created_at := 0, applied_by := [],
       saved_by := ["alice"], apply_count := 0, save_count := 1,
       expires_at := none } "bob" (by decide)⟩

/-- `check_duplicate` (`app/scrapers/base_scraper.py`): does the store
already hold a job with this `job_url`? -/
def check_duplicate (store : List StoreJob) (url : String) : Bool :=
  store.any (fun j => j.job_url == url)

/-- The per-run statistics dictionary returned by `scrape_and_store`. -/
structure ScrapeStats where
  platform : String
  scraped : Nat
  stored : Nat
  duplicates : Nat
  errors : Nat
deriving DecidableEq, Repr

/-- The per-job storage loop of `scrape_and_store`: skip duplicates by
`job_url`; otherwise enrich best-effort (an enrichment failure, modelled by
`enrich` returning `none`, leaves the job unchanged) and insert; a failing
insert (`insertFails`) is caught and counted as an error.  Returns the
grown store together with (stored, duplicates, errors) counts. -/
def storeLoop (enrich : StoreJob → Option StoreJob)
    (insertFails : StoreJob → Bool) (store : List StoreJob)
    (jobs : List StoreJob) : List StoreJob × Nat × Nat × Nat :=
  match jobs with
  | [] => (store, 0, 0, 0)
  | job :: rest =>
    if check_duplicate store job.job_url then
      let r := storeLoop enrich insertFails store rest
      (r.1, r.2.1, r.2.2.1 + 1, r.2.2.2)
    else
      let enriched := (enrich job).getD job
      if insertFails enriched then
        let r := storeLoop enrich insertFails store rest
        (r.1, r.2.1, r.2.2.1, r.2.2.2 + 1)
      else
        let r := storeLoop enrich insertFails (store ++ [enriched]) rest
        (r.1, r.2.1 + 1, r.2.2.1, r.2.2.2)

/-- `scrape_and_store` (`app/scrapers/base_scraper.py`): a failing
`scrape_jobs` is caught and reported as a zero-result record with error
count 1; an empty scrape returns the all-zero record; otherwise every job
goes through the storage loop. -/
def scrape_and_store (enrich : StoreJob → Option StoreJob)
    (insertFails : StoreJob → Bool) (store : List StoreJob)
    (scrapeResult : Except String (List StoreJob)) (platformName : String) :
    List StoreJob × ScrapeStats :=
  match scrapeResult with
  | .error _ => (store, ⟨platformName, 0, 0, 0, 1⟩)
  | .ok [] => (store, ⟨platformName, 0, 0, 0, 0⟩)
  | .ok jobs =>
    let r := storeLoop enrich insertFails store jobs
    (r.1, ⟨platformName, jobs.length, r.2.1, r.2.2.1, r.2.2.2⟩)

/-- One registered adapter, described by the data its run consumes: its
platform name, the outcome of `scrape_jobs`, its enrichment behaviour and
which inserts the store would reject. -/
structure AdapterSpec where
  platform : String
  scrapeResult : Except String (List StoreJob)
  enrich : StoreJob → Option StoreJob
  insertFails : StoreJob → Bool

/-- The aggregate returned by `scrape_all_platforms`. -/
structure RunSummary where
  total_scraped : Nat
  total_stored : Nat
  total_duplicates : Nat
  total_errors : Nat
  platforms : List ScrapeStats

/-- `scrape_all_platforms` (`app/services/scraping_orchestrator.py`): run
every adapter's `scrape_and_store` against the shared store and aggregate
the per-platform statistics. -/
def scrape_all_platforms (store : List StoreJob) (adapters : List AdapterSpec) :
    List StoreJob × RunSummary :=
  match adapters with
  | [] => (store, ⟨0, 0, 0, 0, []⟩)
  | a :: rest =>
    let r := scrape_and_store a.enrich a.insertFails store a.scrapeResult
      a.platform
    let rec' := scrape_all_platforms r.1 rest
    (rec'.1,
     ⟨r.2.scraped + rec'.2.total_scraped,
      r.2.stored + rec'.2.total_stored,
      r.2.duplicates + rec'.2.total_duplicates,
      r.2.errors + rec'.2.total_errors,
      r.2 :: rec'.2.platforms⟩)

/-- A `job_url` already known to the store stays known as the store grows. -/
theorem check_duplicate_append (store ext : List StoreJob) (u : String)
    (h : check_duplicate store u = true) :
    check_duplicate (store ++ ext) u = true := by
  simp only [check_duplicate, List.any_append, Bool.or_eq_true]
  exact Or.inl h

/-- The storage loop never removes postings: a URL present in the store
before the loop is still present afterwards. -/
theorem storeLoop_preserves_duplicate (enrich : StoreJob → Option StoreJob)
    (f : StoreJob → Bool) :
    ∀ (jobs store : List StoreJob) (u : String),
      check_duplicate store u = true →
      check_duplicate (storeLoop enrich f store jobs).1 u = true := by
  intro jobs
  induction jobs with
  | nil => intro store u h; exact h
  | cons job rest ih =>
    intro store u h
    unfold storeLoop
    split
    · exact ih store u h
    · dsimp only
      split
      · exact ih store u h
      · exact ih _ u (check_duplicate_append _ _ _ h)

/-- After the storage loop with url-preserving enrichment and no insert
failures, every processed posting's URL is present in the store. -/
theorem storeLoop_urls_present (enrich : StoreJob → Option StoreJob)
    (f : StoreJob → Bool)
    (henrich : ∀ j j', enrich j = some j' → j'.job_url = j.job_url)
    (hfail : ∀ j, f j = false) :
    ∀ (jobs store : List StoreJob) (j : StoreJob), j ∈ jobs →
      check_duplicate (storeLoop enrich f store jobs).1 j.job_url = true := by
  intro jobs
  induction jobs with
  | nil => intro store j h; cases h
  | cons job rest ih =>
    intro store j hj
    unfold storeLoop
    have hurl : ((enrich job).getD job).job_url = job.job_url := by
      cases he : enrich job with
      | none => rfl
      | some j' => exact henrich job j' he
    rcases List.mem_cons.mp hj with rfl | hmem
    · by_cases hdup : check_duplicate store j.job_url = true
      · rw [if_pos hdup]
        exact storeLoop_preserves_duplicate enrich f rest store _ hdup
      · rw [if_neg hdup]
        dsimp only
        rw [hfail]
        simp only [Bool.false_eq_true, if_false]
        apply storeLoop_preserves_duplicate
        simp only [check_duplicate, List.any_append, Bool.or_eq_true,
          List.any_cons, List.any_nil, Bool.or_false]
        exact Or.inr (by simp [hurl])
    · by_cases hdup : check_duplicate store job.job_url = true
      · rw [if_pos hdup]
        exact ih store j hmem
      · rw [if_neg hdup]
        dsimp only
        rw [hfail]
        simp only [Bool.false_eq_true, if_false]
        exact ih _ j hmem

/-- When every incoming posting's URL is already in the store, the storage
loop stores nothing, counts every posting as a duplicate, and leaves the
store unchanged. -/
theorem storeLoop_all_duplicates (enrich : StoreJob → Option StoreJob)
    (f : StoreJob → Bool) :
    ∀ (jobs store : List StoreJob),
      (∀ j ∈ jobs, check_duplicate store j.job_url = true) →
      storeLoop enrich f store jobs = (store, 0, jobs.length, 0) := by
  intro jobs
  induction jobs with
  | nil => intro store _; rfl
  | cons job rest ih =>
    intro store h
    unfold storeLoop
    rw [if_pos (h job (List.mem_cons_self job rest))]
    rw [ih store (fun j hj => h j (List.mem_cons_of_mem _ hj))]
    rfl

/-- C2: ingestion is idempotent with respect to upstream data — running the
scrape-and-store pass a second time over the same postings (enrichment
preserves each posting's source URL and the store accepted every insert, so
each URL is already present) stores zero postings, counts every posting as
a duplicate, and leaves the store unchanged. -/
theorem C2_reingestion_stores_nothing
    (enrich : StoreJob → Option StoreJob) (insertFails : StoreJob → Bool)
    (store jobs : List StoreJob) (name1 name2 : String)
    (henrich : ∀ j j', enrich j = some j' → j'.job_url = j.job_url)
    (hfail : ∀ j, insertFails j = false) :
    (scrape_and_store enrich insertFails
      (scrape_and_store enrich insertFails store (Except.ok jobs) name1).1
      (Except.ok jobs) name2).2.stored = 0 ∧
    (scrape_and_store enrich insertFails
      (scrape_and_store enrich insertFails store (Except.ok jobs) name1).1
      (Except.ok jobs) name2).2.duplicates = jobs.length ∧
    (scrape_and_store enrich insertFails
      (scrape_and_store enrich insertFails store (Except.ok jobs) name1).1
      (Except.ok jobs) name2).2.errors = 0 ∧
    (scrape_and_store enrich insertFails
      (scrape_and_store enrich insertFails store (Except.ok jobs) name1).1
      (Except.ok jobs) name2).1 =
      (scrape_and_store enrich insertFails store (Except.ok jobs) name1).1 := by
  cases jobs with
  | nil => exact ⟨rfl, rfl, rfl, rfl⟩
  | cons job rest =>
    have hpresent : ∀ j ∈ job :: rest,
        check_duplicate
          (scrape_and_store enrich insertFails store
            (Except.ok (job :: rest)) name1).1 j.job_url = true := by
      intro j hj
      exact storeLoop_urls_present enrich insertFails henrich hfail
        (job :: rest) store j hj
    have hloop := storeLoop_all_duplicates enrich insertFails (job :: rest)
      (scrape_and_store enrich insertFails store
        (Except.ok (job :: rest)) name1).1 hpresent
    unfold scrape_and_store at hloop ⊢
    dsimp only at hloop ⊢
    rw [hloop]
    exact ⟨rfl, rfl, rfl, rfl⟩

/-- C2 witness: one concrete posting, identity-preserving enrichment, a
store that accepts every insert. -/
theorem C2_reingestion_stores_nothing_witness :
    (scrape_and_store (fun _ => none) (fun _ => false)
      (scrape_and_store (fun _ => none) (fun _ => false) []
        (Except.ok [sweepJobOld]) "P1").1
      (Except.ok [sweepJobOld]) "P2").2.stored = 0 ∧
    (scrape_and_store (fun _ => none) (fun _ => false)
      (scrape_and_store (fun _ => none) (fun _ => false) []
        (Except.ok [sweepJobOld]) "P1").1
      (Except.ok [sweepJobOld]) "P2").2.duplicates = [sweepJobOld].length ∧
    (scrape_and_store (fun _ => none) (fun _ => false)
      (scrape_and_store (fun _ => none) (fun _ => false) []
        (Except.ok [sweepJobOld]) "P1").1
      (Except.ok [sweepJobOld]) "P2").2.errors = 0 ∧
    (scrape_and_store (fun _ => none) (fun _ => false)
      (scrape_and_store (fun _ => none) (fun _ => false) []
        (Except.ok [sweepJobOld]) "P1").1
      (Except.ok [sweepJobOld]) "P2").1 =
      (scrape_and_store (fun _ => none) (fun _ => false) []
        (Except.ok [sweepJobOld]) "P1").1 :=
  C2_reingestion_stores_nothing (fun _ => none) (fun _ => false) []
    [sweepJobOld] "P1" "P2" (fun _ _ h => Option.noConfusion h)
    (fun _ => rfl)

/-- A scraped posting whose insert the store will reject. -/
def jobFailing : StoreJob :=
  { job_url := "x", created_at := 0, applied_by := [], saved_by := [],
    apply_count := 0, save_count := 0, expires_at := none }

/-- A scraped posting whose insert succeeds. -/
def jobStoring : StoreJob :=
  { job_url := "y", created_at := 0, applied_by := [], saved_by := [],
    apply_count := 0, save_count := 0, expires_at := none }

/-- C9 counterexample: a run in which storing one of two scraped postings
fails returns a result record with a non-zero error count but also one
stored posting — not the zero-stored record the claim promises for every
storing failure. -/
theorem C9_partial_store_failure_counterexample :
    (scrape_and_store (fun _ => none) (fun j => j.job_url == "x") []
      (Except.ok [jobFailing, jobStoring]) "P").2.errors = 1 ∧
    (scrape_and_store (fun _ => none) (fun j => j.job_url == "x") []
      (Except.ok [jobFailing, jobStoring]) "P").2.stored = 1 ∧
    ¬ ((scrape_and_store (fun _ => none) (fun j => j.job_url == "x") []
      (Except.ok [jobFailing, jobStoring]) "P").2.stored = 0) := by
  refine ⟨rfl, rfl, ?_⟩
  intro h
  simp [scrape_and_store, storeLoop, check_duplicate, jobFailing,
    jobStoring] at h

/-- Per-adapter aggregation of `scrape_all_platforms`: one statistics
record per adapter, totals equal to the sums of the per-platform counts. -/
theorem scrape_all_platforms_aggregates :
    ∀ (adapters : List AdapterSpec) (store : List StoreJob),
      (scrape_all_platforms store adapters).2.platforms.length =
        adapters.length ∧
      (scrape_all_platforms store adapters).2.total_scraped =
        ((scrape_all_platforms store adapters).2.platforms.map
          ScrapeStats.scraped).sum ∧
      (scrape_all_platforms store adapters).2.total_stored =
        ((scrape_all_platforms store adapters).2.platforms.map
          ScrapeStats.stored).sum ∧
      (scrape_all_platforms store adapters).2.total_duplicates =
        ((scrape_all_platforms store adapters).2.platforms.map
          ScrapeStats.duplicates).sum ∧
      (scrape_all_platforms store adapters).2.total_errors =
        ((scrape_all_platforms store adapters).2.platforms.map
          ScrapeStats.errors).sum := by
  intro adapters
  induction adapters with
  | nil => intro store; exact ⟨rfl, rfl, rfl, rfl, rfl⟩
  | cons a rest ih =>
    intro store
    have h := ih (scrape_and_store a.enrich a.insertFails store
      a.scrapeResult a.platform).1
    unfold scrape_all_platforms
    dsimp only
    refine ⟨?_, ?_, ?_, ?_, ?_⟩
    · simp [h.1]
    · simp [h.2.1]
    · simp [h.2.2.1]
    · simp [h.2.2.2.1]
    · simp [h.2.2.2.2]

/-- C9 amended: an adapter's fetch-and-store never raises to the
orchestrator — it is a total function; a failure of the scrape itself
yields the zero-result record with error count 1 and an unchanged store
(a failure storing an individual posting only increments the error count,
other postings may still be stored); and the orchestrator's run completes,
producing one statistics record per adapter and totals that aggregate all
adapters' results. -/
theorem C9_scrape_failure_isolated :
    (∀ (enrich : StoreJob → Option StoreJob) (f : StoreJob → Bool)
        (store : List StoreJob) (msg name : String),
      scrape_and_store enrich f store (Except.error msg) name =
        (store, ⟨name, 0, 0, 0, 1⟩)) ∧
    (∀ (adapters : List AdapterSpec) (store : List StoreJob),
      (scrape_all_platforms store adapters).2.platforms.length =
        adapters.length ∧
      (scrape_all_platforms store adapters).2.total_stored =
        ((scrape_all_platforms store adapters).2.platforms.map
          ScrapeStats.stored).sum ∧
      (scrape_all_platforms store adapters).2.total_errors =
        ((scrape_all_platforms store adapters).2.platforms.map
          ScrapeStats.errors).sum) :=
  ⟨fun _ _ _ _ _ => rfl,
   fun adapters store =>
    ⟨(scrape_all_platforms_aggregates adapters store).1,
     (scrape_all_platforms_aggregates adapters store).2.2.1,
     (scrape_all_platforms_aggregates adapters store).2.2.2.2⟩⟩

/-- Round-to-nearest integer with ties to even, the rounding rule of
Python's builtin `round`. -/
def roundHalfEven (x : ℚ) : ℤ :=
  if x - ⌊x⌋ < 1 / 2 then ⌊x⌋
  else if 1 / 2 < x - ⌊x⌋ then ⌊x⌋ + 1
  else if Even ⌊x⌋ then ⌊x⌋ else ⌊x⌋ + 1

/-- Python's `round(x, 1)`: one decimal digit, ties to even. -/
def round1 (x : ℚ) : ℚ := (roundHalfEven (10 * x) : ℚ) / 10

/-- Python's `str.lower()` for the ASCII strings the matcher compares
(structurally recursive so that proofs can evaluate it). -/
def pyToLower (s : String) : String := String.mk (s.data.map Char.toLower)

/-- Lower-case a skill list, as the matcher does before comparing. -/
def lowerList (l : List String) : List String := l.map pyToLower

namespace JobMatcher

/-- The posting fields read by `JobMatcher.calculate_match_score`. -/
structure MatchJob where
  skills_required : List String
  experience_level : String
  location : String
  remote_type : String
  salary_min : Option ℚ
  salary_max : Option ℚ
  job_type : String
  category : String

/-- The resume fields read by the matcher. -/
structure Resume where
  skills : List String
  experience : List String

/-- The preference fields read by the matcher. -/
structure Prefs where
  preferred_locations : List String
  remote_preference : String
  salary_min : Option ℚ
  salary_max : Option ℚ
  experience_level : Option String
  job_types : List String
  job_categories : List String

/-- The defaults `calculate_match_score` substitutes when no preference
document exists (`preferences.get(..., default)`). -/
def defaultPrefs : Prefs :=
  { preferred_locations := [], remote_preference := "Any",
    salary_min := none, salary_max := none, experience_level := none,
    job_types := [("Full-time")], job_categories := [] }

/-- The matcher's result dictionary. -/
structure MatchResult where
  overall_score : ℚ
  criterion_scores : List (String × ℚ)
  missing_skills : List String
  matched_skills : List String
  recommendations : List String

/-- Number of required skills present (case-insensitively) among the
resume skills — the `matched_count` of `_calculate_skills_match`. -/
def matchedCount (job_skills resume_skills : List String) : ℕ :=
  (lowerList job_skills).countP
    (fun s => (lowerList resume_skills).contains s)

/-- `_calculate_skills_match`: 100 with no required skills, 0 with no
resume skills, else the matched fraction as a percentage. -/
def calculate_skills_match (job_skills resume_skills : List String) : ℚ :=
  if job_skills = [] then 100
  else if resume_skills = [] then 0
  else (matchedCount job_skills resume_skills : ℚ) /
    (job_skills.length : ℚ) * 100

/-- The `experience_levels` dictionary of `_calculate_experience_match`. -/
def levelOf (s : String) : Option ℕ :=
  if s == "Entry" then some 1
  else if s == "Mid" then some 2
  else if s == "Senior" then some 3
  else if s == "Lead" then some 4
  else none

/-- The count-based seniority inference of `_calculate_experience_match`
(entered only when the experience list is non-empty). -/
def inferredLevel (resume_experience : List String) : ℕ :=
  if resume_experience.length ≥ 7 then 4
  else if resume_experience.length ≥ 5 then 3
  else if resume_experience.length ≥ 2 then 2
  else 1

/-- The candidate level of `_calculate_experience_match`: a truthy
preference that names a level wins; otherwise a non-empty experience list
is counted; otherwise the default Mid (2). -/
def userLevel (pref_experience : Option String)
    (resume_experience : List String) : ℕ :=
  match pref_experience with
  | some p =>
    if p ≠ "" ∧ (levelOf p).isSome then (levelOf p).getD 2
    else if resume_experience ≠ [] then inferredLevel resume_experience
    else 2
  | none =>
    if resume_experience ≠ [] then inferredLevel resume_experience
    else 2

/-- `_calculate_experience_match`: 100 when the posting names no level;
else the distance table over the level scale, with unknown posting levels
defaulting to Mid (2). -/
def calculate_experience_match (job_experience : String)
    (resume_experience : List String) (pref_experience : Option String) :
    ℚ :=
  if job_experience == "" then 100
  else
    let job_level := (levelOf job_experience).getD 2
    let user_level := userLevel pref_experience resume_experience
    let level_diff := ((job_level : ℤ) - (user_level : ℤ)).natAbs
    if level_diff = 0 then 100
    else if level_diff = 1 then 75
    else if level_diff = 2 then 50
    else 25

/-- Python's substring test `needle in hay`. -/
def strContains (hay needle : String) : Bool :=
  decide (List.IsInfix needle.data hay.data)

/-- `_calculate_location_match`. -/
def calculate_location_match (job_location job_remote : String)
    (pref_locations : List String) (pref_remote : String) : ℚ :=
  if job_remote == "Remote" then
    if pref_remote == "Remote" || pref_remote == "Any" then 100
    else if pref_remote == "Hybrid" then 75
    else 50
  else if job_remote == "Hybrid" then
    if pref_remote == "Hybrid" || pref_remote == "Any" then 100
    else if pref_remote == "Remote" then 75
    else 85
  else if pref_remote == "Remote" then 25
  else if pref_locations = [] then 75
  else if pref_locations.any (fun p =>
      strContains (pyToLower job_location) (pyToLower p) ||
      strContains (pyToLower p) (pyToLower job_location)) then 100
  else 50

/-- Python truthiness of an optional number (`None` and `0` are falsy). -/
def truthyQ : Option ℚ → Bool
  | none => false
  | some x => x != 0

/-- `_calculate_salary_match`: neutral 75 when either side lacks salary
data; else banded by the percentage deviation between the midpoints,
relative to the preferred midpoint. -/
def calculate_salary_match (job_salary_min job_salary_max
    pref_salary_min pref_salary_max : Option ℚ) : ℚ :=
  if !truthyQ job_salary_min && !truthyQ job_salary_max then 75
  else if !truthyQ pref_salary_min && !truthyQ pref_salary_max then 75
  else
    let job_salary :=
      if truthyQ job_salary_min && truthyQ job_salary_max then
        (job_salary_min.getD 0 + job_salary_max.getD 0) / 2
      else if truthyQ job_salary_min then job_salary_min.getD 0
      else job_salary_max.getD 0
    let pref_salary :=
      if truthyQ pref_salary_min && truthyQ pref_salary_max then
        (pref_salary_min.getD 0 + pref_salary_max.getD 0) / 2
      else if truthyQ pref_salary_min then pref_salary_min.getD 0
      else if truthyQ pref_salary_max then pref_salary_max.getD 0
      else job_salary
    if pref_salary = 0 then 75
    else
      let diff_percentage := |job_salary - pref_salary| / pref_salary * 100
      if diff_percentage ≤ 10 then 100
      else if diff_percentage ≤ 20 then 85
      else if diff_percentage ≤ 30 then 70
      else if diff_percentage ≤ 50 then 50
      else 25

/-- `_calculate_job_type_match`. -/
def calculate_job_type_match (job_type : String)
    (pref_job_types : List String) : ℚ :=
  if pref_job_types = [] then 100
  else if pref_job_types.contains job_type then 100
  else if job_type == "Full-time" && pref_job_types.contains ("Part-time")
    then 50
  else if job_type == "Part-time" && pref_job_types.contains ("Full-time")
    then 50
  else 25

/-- `_calculate_culture_match`. -/
def calculate_culture_match (job_category : String)
    (pref_categories : List String) : ℚ :=
  if pref_categories = [] then 75
  else if pref_categories.contains job_category then 100
  else 50

/-- `_get_missing_skills`: required skills absent (case-insensitively)
from the resume, in the posting's casing and order. -/
def get_missing_skills (job_skills resume_skills : List String) :
    List String :=
  job_skills.filter
    (fun s => !(lowerList resume_skills).contains (pyToLower s))

/-- `_generate_recommendations`. -/
def generate_recommendations (skills_score experience_score location_score
    salary_score : ℚ) (missing_skills : List String) : List String :=
  (if skills_score < 60 then
    [if missing_skills = [] then
      ("Highlight relevant skills in your resume")
     else
      ("Consider learning: ") ++
        String.intercalate (", ") (missing_skills.take 3) ++
        (" to improve your match")]
   else []) ++
  (if experience_score < 60 then
    [("This role may require different experience level than yours")]
   else []) ++
  (if location_score < 60 then
    [("Consider if you're willing to relocate or adjust remote preferences")]
   else []) ++
  (if salary_score < 60 then
    [("Salary expectations may not align with this role")]
   else []) ++
  (if skills_score ≥ 80 ∧ experience_score ≥ 70 then
    [("Strong match! Consider applying soon")]
   else [])

/-- `JobMatcher.calculate_match_score`: the six weighted criteria, the
rounded overall score, matched and missing skills, recommendations. -/
def calculate_match_score (job : MatchJob) (user_resume : Resume)
    (user_preferences : Option Prefs) : MatchResult :=
  let p := user_preferences.getD defaultPrefs
  let skills_score :=
    calculate_skills_match job.skills_required user_resume.skills
  let experience_score := calculate_experience_match job.experience_level
    user_resume.experience p.experience_level
  let location_score := calculate_location_match job.location
    job.remote_type p.preferred_locations p.remote_preference
  let salary_score := calculate_salary_match job.salary_min job.salary_max
    p.salary_min p.salary_max
  let job_type_score := calculate_job_type_match job.job_type p.job_types
  let culture_score :=
    calculate_culture_match job.category p.job_categories
  let overall_score :=
    skills_score * 40 / 100 + experience_score * 25 / 100 +
    location_score * 15 / 100 + salary_score * 10 / 100 +
    job_type_score * 5 / 100 + culture_score * 5 / 100
  let missing_skills :=
    get_missing_skills job.skills_required user_resume.skills
  { overall_score := round1 overall_score,
    criterion_scores :=
      [(("skills"), round1 skills_score),
       (("experience"), round1 experience_score),
       (("location"), round1 location_score),
       (("salary"), round1 salary_score),
       (("job_type"), round1 job_type_score),
       (("culture"), round1 culture_score)],
    missing_skills := missing_skills,
    matched_skills := job.skills_required.filter
      (fun s => (lowerList user_resume.skills).contains (pyToLower s)),
    recommendations := generate_recommendations skills_score
      experience_score location_score salary_score missing_skills }

/-- `calculate_job_match` (module-level helper of
`app/services/job_matcher.py`): with no resume on record, a fixed
zero-score result with a single upload-a-resume recommendation; otherwise
the full matcher. -/
def calculate_job_match (job : MatchJob) (resume : Option Resume)
    (preferences : Option Prefs) : MatchResult :=
  match resume with
  | none =>
    { overall_score := 0,
      criterion_scores := [],
      missing_skills := job.skills_required,
      matched_skills := [],
      recommendations := [("Please upload a resume to see match scores")] }
  | some r => calculate_match_score job r preferences

end JobMatcher


namespace JobMatcher

/-- C5: the skills sub-score is the case-insensitively matched fraction of
the required skills as a percentage, 100 with no required skills, 0 when
the candidate has none; required `["Python","AWS"]` against candidate
`["python","docker"]` gives 50. -/
theorem C5_skills_subscore_matched_fraction
    (job_skills resume_skills : List String)
    (hjs : job_skills ≠ []) (hrs : resume_skills ≠ []) :
    calculate_skills_match [] resume_skills = 100 ∧
    calculate_skills_match job_skills [] = 0 ∧
    calculate_skills_match job_skills resume_skills =
      (matchedCount job_skills resume_skills : ℚ) /
        (job_skills.length : ℚ) * 100 ∧
    calculate_skills_match [("Python"), ("AWS")]
      [("python"), ("docker")] = 50 := by
  refine ⟨rfl, ?_, ?_, ?_⟩
  · simp [calculate_skills_match, hjs]
  · simp [calculate_skills_match, hjs, hrs]
  · have hm : matchedCount [("Python"), ("AWS")]
        [("python"), ("docker")] = 1 := by decide
    simp only [calculate_skills_match, hm]
    norm_num
    simp

/-- C5 witness: the scenario inputs themselves. -/
theorem C5_skills_subscore_matched_fraction_witness :
    ((["Python", "AWS"] : List String) ≠ []) ∧
    ((["python", "docker"] : List String) ≠ []) ∧
    (calculate_skills_match [] ["python", "docker"] = 100 ∧
     calculate_skills_match ["Python", "AWS"] [] = 0 ∧
     calculate_skills_match ["Python", "AWS"] ["python", "docker"] =
       (matchedCount ["Python", "AWS"] ["python", "docker"] : ℚ) /
         ((["Python", "AWS"] : List String).length : ℚ) * 100 ∧
     calculate_skills_match [("Python"), ("AWS")]
       [("python"), ("docker")] = 50) :=
  ⟨by decide, by decide,
   C5_skills_subscore_matched_fraction ["Python", "AWS"]
     ["python", "docker"] (by decide) (by decide)⟩

/-- The deviation bands of the salary rule. -/
def salaryBand (d : ℚ) : ℚ :=
  if d ≤ 10 then 100
  else if d ≤ 20 then 85
  else if d ≤ 30 then 70
  else if d ≤ 50 then 50
  else 25

/-- With positive salary bounds on both sides, the salary sub-score is the
band of the deviation of the midpoints relative to the preferred
midpoint. -/
theorem calculate_salary_match_pos (jm jM pm pM : ℚ) (hjm : 0 < jm)
    (hjM : 0 < jM) (hpm : 0 < pm) (hpM : 0 < pM) :
    calculate_salary_match (some jm) (some jM) (some pm) (some pM) =
      salaryBand (|(jm + jM) / 2 - (pm + pM) / 2| / ((pm + pM) / 2)
        * 100) := by
  have h1 : (jm != 0) = true := by simp [bne_iff_ne]; exact hjm.ne'
  have h2 : (jM != 0) = true := by simp [bne_iff_ne]; exact hjM.ne'
  have h3 : (pm != 0) = true := by simp [bne_iff_ne]; exact hpm.ne'
  have h4 : (pM != 0) = true := by simp [bne_iff_ne]; exact hpM.ne'
  have hmid : ¬ ((pm + pM) / 2 = (0 : ℚ)) := by positivity
  unfold calculate_salary_match truthyQ salaryBand
  simp only [h1, h2, h3, h4, Bool.and_self, Bool.not_true, Bool.false_and,
    Bool.false_eq_true, if_false, Option.getD_some, if_true, hmid]

/-- C4 counterexample: with posting band 100000–120000 and preference band
150000–150000 the code's deviation is |110000−150000|/150000·100 ≈ 26.7%,
inside the ≤30% band, so the salary sub-score is 70, not the claimed 50. -/
theorem C4_salary_scenario_counterexample :
    calculate_salary_match (some 100000) (some 120000) (some 150000)
      (some 150000) = 70 ∧ (70 : ℚ) ≠ 50 := by
  constructor
  · rw [calculate_salary_match_pos 100000 120000 150000 150000
      (by norm_num) (by norm_num) (by norm_num) (by norm_num)]
    have habs : |(100000 + 120000 : ℚ) / 2 - (150000 + 150000 : ℚ) / 2| =
        40000 := by
      rw [abs_of_nonpos] <;> norm_num
    rw [habs]
    unfold salaryBand
    norm_num
  · norm_num

/-- C4 amended: 75 when either side lacks salary data; else the sub-score
is banded (≤10%→100, ≤20%→85, ≤30%→70, ≤50%→50, else 25) by the deviation
between the midpoints measured relative to the preference midpoint; for
posting band 100000–120000 against preference band 150000–150000 the
deviation is 26.7% and the sub-score is 70. -/
theorem C4_salary_subscore_banded_by_pref_midpoint
    (a b : Option ℚ) (jm jM pm pM : ℚ) :
    calculate_salary_match none none a b = 75 ∧
    calculate_salary_match a b none none = 75 ∧
    (0 < jm → 0 < jM → 0 < pm → 0 < pM →
      calculate_salary_match (some jm) (some jM) (some pm) (some pM) =
        salaryBand (|(jm + jM) / 2 - (pm + pM) / 2| / ((pm + pM) / 2)
          * 100)) ∧
    calculate_salary_match (some 100000) (some 120000) (some 150000)
      (some 150000) = 70 := by
  refine ⟨rfl, ?_, ?_, ?_⟩
  · unfold calculate_salary_match
    split
    · rfl
    · rfl
  · intro hjm hjM hpm hpM
    exact calculate_salary_match_pos jm jM pm pM hjm hjM hpm hpM
  · rw [calculate_salary_match_pos 100000 120000 150000 150000
      (by norm_num) (by norm_num) (by norm_num) (by norm_num)]
    have habs : |(100000 + 120000 : ℚ) / 2 - (150000 + 150000 : ℚ) / 2| =
        40000 := by
      rw [abs_of_nonpos] <;> norm_num
    rw [habs]
    unfold salaryBand
    norm_num

/-- C4 witness: the amended theorem applied to the scenario bands. -/
theorem C4_salary_subscore_banded_witness :
    calculate_salary_match (some 100000) (some 120000) (some 150000)
      (some 150000) =
      salaryBand (|(100000 + 120000 : ℚ) / 2 - (150000 + 150000 : ℚ) / 2| /
        ((150000 + 150000 : ℚ) / 2) * 100) :=
  (C4_salary_subscore_banded_by_pref_midpoint none none 100000 120000
    150000 150000).2.2.1 (by norm_num) (by norm_num) (by norm_num)
    (by norm_num)

/-- C6 counterexample: an Entry-level posting, no explicit seniority
preference and an empty experience list — the claim's inference rule
(`else→Entry`) predicts distance 0 and sub-score 100, but the code keeps
the Mid default and returns 75. -/
theorem C6_empty_experience_defaults_mid_counterexample :
    calculate_experience_match ("Entry") [] none = 75 ∧
      (75 : ℚ) ≠ 100 := by
  constructor
  · rfl
  · norm_num

/-- The count-based seniority inference as the claim states it. -/
def specInferredLevel (resume_experience : List String) : ℕ :=
  if resume_experience.length ≥ 7 then 4
  else if resume_experience.length ≥ 5 then 3
  else if resume_experience.length ≥ 2 then 2
  else 1

/-- The candidate level per the amended claim: an explicit preference
naming a scale level wins; otherwise, when the experience list is
non-empty, the count-based inference applies; with an empty list the level
defaults to Mid (2). -/
def specCandidateLevel (pref_experience : Option String)
    (resume_experience : List String) : ℕ :=
  match pref_experience with
  | some p =>
    match levelOf p with
    | some l => l
    | none =>
      if resume_experience = [] then 2
      else specInferredLevel resume_experience
  | none =>
    if resume_experience = [] then 2
    else specInferredLevel resume_experience

/-- The distance table of the seniority rule. -/
def distanceScore (d : ℕ) : ℚ :=
  if d = 0 then 100
  else if d = 1 then 75
  else if d = 2 then 50
  else 25

/-- The candidate level the code computes coincides with the amended
claim's candidate level. -/
theorem userLevel_eq_specCandidateLevel
    (pref_experience : Option String) (resume_experience : List String) :
    userLevel pref_experience resume_experience =
      specCandidateLevel pref_experience resume_experience := by
  cases pref_experience with
  | none =>
    by_cases hre : resume_experience = []
    · simp [userLevel, specCandidateLevel, hre]
    · simp [userLevel, specCandidateLevel, hre, inferredLevel,
        specInferredLevel]
  | some p =>
    cases hl : levelOf p with
    | some l =>
      have hp : p ≠ "" := by
        intro h
        rw [h] at hl
        exact Option.noConfusion ((by decide : levelOf "" = none) ▸ hl)
      simp [userLevel, specCandidateLevel, hl, hp]
    | none =>
      by_cases hre : resume_experience = []
      · simp [userLevel, specCandidateLevel, hl, hre]
      · simp [userLevel, specCandidateLevel, hl, hre, inferredLevel,
          specInferredLevel]

/-- C6 amended: 100 when the posting names no level; when the posting's
level is on the scale Entry=1, Mid=2, Senior=3, Lead=4, the sub-score is
the distance table (0→100, 1→75, 2→50, ≥3→25) applied to the absolute
level distance, where the candidate level is the explicit valid preference
when one is given, otherwise inferred from a non-empty experience-entry
count (≥7→Lead, ≥5→Senior, ≥2→Mid, else Entry), and defaults to Mid when
no preference is given and the experience list is empty. -/
theorem C6_seniority_distance_table
    (job_experience : String) (resume_experience : List String)
    (pref_experience : Option String) (jl : ℕ)
    (hl : levelOf job_experience = some jl) :
    calculate_experience_match "" resume_experience pref_experience
      = 100 ∧
    calculate_experience_match job_experience resume_experience
        pref_experience =
      distanceScore
        ((jl : ℤ) -
          (specCandidateLevel pref_experience resume_experience : ℤ)).natAbs ∧
    specCandidateLevel none [] = 2 := by
  refine ⟨rfl, ?_, rfl⟩
  have hne : (job_experience == "") = false := by
    cases he : job_experience == "" with
    | false => rfl
    | true =>
      exfalso
      have heq : job_experience = "" := by simpa using he
      rw [heq] at hl
      exact Option.noConfusion ((by decide : levelOf "" = none) ▸ hl)
  unfold calculate_experience_match
  rw [hne]
  simp only [Bool.false_eq_true, if_false, hl, Option.getD_some,
    userLevel_eq_specCandidateLevel, distanceScore]

/-- C6 witness: a Senior posting against a Lead preference: distance 1,
sub-score 75. -/
theorem C6_seniority_distance_table_witness :
    (levelOf ("Senior") = some 3) ∧
    (calculate_experience_match "" [] (some ("Lead")) = 100 ∧
     calculate_experience_match ("Senior") [] (some ("Lead")) =
       distanceScore
         ((3 : ℤ) - (specCandidateLevel (some ("Lead")) [] : ℤ)).natAbs ∧
     specCandidateLevel none [] = 2) :=
  ⟨by decide,
   C6_seniority_distance_table ("Senior") [] (some ("Lead")) 3 (by decide)⟩

/-- C8: with no resume on record the matcher returns a valid zero-score
result with exactly one recommendation (create a profile / upload a resume
first) — it is a total function, never an error. -/
theorem C8_missing_profile_zero_score :
    ∀ (job : MatchJob) (preferences : Option Prefs),
      (calculate_job_match job none preferences).overall_score = 0 ∧
      (calculate_job_match job none preferences).recommendations =
        [("Please upload a resume to see match scores")] ∧
      (calculate_job_match job none preferences).recommendations.length
        = 1 ∧
      (calculate_job_match job none preferences).matched_skills = [] ∧
      (calculate_job_match job none preferences).missing_skills =
        job.skills_required :=
  fun _ _ => ⟨rfl, rfl, rfl, rfl, rfl⟩

end JobMatcher

/-- Half-even rounding rounds to the floor or to the floor plus one. -/
theorem roundHalfEven_bounds (x : ℚ) :
    ⌊x⌋ ≤ roundHalfEven x ∧ roundHalfEven x ≤ ⌊x⌋ + 1 := by
  unfold roundHalfEven
  split_ifs <;> omega

/-- Half-even rounding is monotone. -/
theorem roundHalfEven_mono {x y : ℚ} (h : x ≤ y) :
    roundHalfEven x ≤ roundHalfEven y := by
  have hf : ⌊x⌋ ≤ ⌊y⌋ := Int.floor_mono h
  rcases lt_or_eq_of_le hf with hlt | heq
  · have h1 := (roundHalfEven_bounds x).2
    have h2 := (roundHalfEven_bounds y).1
    omega
  · unfold roundHalfEven
    rw [← heq]
    have hfx : (⌊x⌋ : ℚ) ≤ x := Int.floor_le x
    split_ifs <;> first | omega | linarith

/-- Rounding to one decimal with ties to even is monotone. -/
theorem round1_mono {x y : ℚ} (h : x ≤ y) : round1 x ≤ round1 y := by
  unfold round1
  have h10 : roundHalfEven (10 * x) ≤ roundHalfEven (10 * y) :=
    roundHalfEven_mono (by linarith)
  have hc : ((roundHalfEven (10 * x) : ℤ) : ℚ) ≤
      ((roundHalfEven (10 * y) : ℤ) : ℚ) := by exact_mod_cast h10
  linarith

namespace JobMatcher

/-- Appending a skill to the resume never decreases the matched count. -/
theorem matchedCount_le_append (job_skills resume_skills : List String)
    (s : String) :
    matchedCount job_skills resume_skills ≤
      matchedCount job_skills (resume_skills ++ [s]) := by
  unfold matchedCount lowerList
  rw [List.map_append]
  apply List.countP_mono_left
  intro a _ ha
  simp only [List.elem_eq_mem, decide_eq_true_eq] at ha ⊢
  exact List.mem_append_left _ ha

/-- Appending a skill to the resume never decreases the skills
sub-score. -/
theorem calculate_skills_match_le_append
    (job_skills resume_skills : List String) (s : String) :
    calculate_skills_match job_skills resume_skills ≤
      calculate_skills_match job_skills (resume_skills ++ [s]) := by
  unfold calculate_skills_match
  by_cases hjs : job_skills = []
  · simp [hjs]
  · rw [if_neg hjs, if_neg hjs]
    by_cases hrs : resume_skills = []
    · subst hrs
      rw [if_pos rfl, List.nil_append,
        if_neg (by simp : ¬([s] = ([] : List String)))]
      positivity
    · rw [if_neg hrs,
        if_neg (by simp [hrs] : ¬(resume_skills ++ [s] = []))]
      have hc : (matchedCount job_skills resume_skills : ℚ) ≤
          (matchedCount job_skills (resume_skills ++ [s]) : ℚ) := by
        exact_mod_cast matchedCount_le_append job_skills resume_skills s
      have hlen : (0 : ℚ) < (job_skills.length : ℚ) := by
        have : 0 < job_skills.length := List.length_pos.mpr hjs
        exact_mod_cast this
      have hdiv := (div_le_div_iff_of_pos_right hlen).mpr hc
      linarith

/-- C7: adding one of the posting's required skills (matched
case-insensitively) to the candidate's skill list, holding every other
input fixed, never decreases the overall match score. -/
theorem C7_overall_score_monotone_in_matched_skill
    (job : MatchJob) (user_resume : Resume)
    (user_preferences : Option Prefs) (s : String)
    (hs : pyToLower s ∈ lowerList job.skills_required) :
    (calculate_match_score job user_resume user_preferences).overall_score
      ≤ (calculate_match_score job
          { user_resume with skills := user_resume.skills ++ [s] }
          user_preferences).overall_score := by
  unfold calculate_match_score
  dsimp only
  apply round1_mono
  have hss := calculate_skills_match_le_append job.skills_required
    user_resume.skills s
  linarith

/-- C7 witness: the required-skill `"aws"` added to a one-skill resume. -/
theorem C7_overall_score_monotone_witness :
    (pyToLower ("aws") ∈
      lowerList ((MatchJob.mk ["Python", "AWS"] "" "NYC" "Remote" none none
        "Full-time" "Backend").skills_required)) ∧
    (calculate_match_score
      (MatchJob.mk ["Python", "AWS"] "" "NYC" "Remote" none none
        "Full-time" "Backend")
      (Resume.mk ["python"] []) none).overall_score ≤
    (calculate_match_score
      (MatchJob.mk ["Python", "AWS"] "" "NYC" "Remote" none none
        "Full-time" "Backend")
      { Resume.mk ["python"] [] with
          skills := (Resume.mk ["python"] []).skills ++ ["aws"] }
      none).overall_score :=
  ⟨by decide,
   C7_overall_score_monotone_in_matched_skill
     (MatchJob.mk ["Python", "AWS"] "" "NYC" "Remote" none none
       "Full-time" "Backend")
     (Resume.mk ["python"] []) none ("aws") (by decide)⟩

end JobMatcher
